import Mathlib

/-!
# Verification of the kafka_realtime_pipeline repository

Shallow embedding of the two source files:

* `src/producer.py` — event generator (`generate_synthetic_appointment`) and
  kafka publisher loop (`run_producer`);
* `src/dashboard.py` — query adapter (`load_data`), KPI block, grouped
  rollups (`status_summary`, `volume_cost_trend`) and the sidebar controls
  (`status_options`).

Monetary values are embedded as rationals (`ℚ`); the Python values are
produced by `Faker.pyfloat(..., right_digits=2)` and therefore carry at most
two decimal digits, which the predicate `(q * 100).den = 1` captures exactly.
`round2` embeds Python's `round(x, 2)`; on the values arising here (exact
two-decimal inputs and non-tie display roundings) half-up and half-even
rounding agree, so a single floor-based definition is faithful.
-/

/-- Embedding of Python `round(x, 2)` as used in `producer.py` (and of the
`:,.2f` display format in `dashboard.py`): round to two decimal places. -/
def round2 (q : ℚ) : ℚ := (⌊q * 100 + 1 / 2⌋ : ℚ) / 100

namespace Producer

/-- `departments` list from `generate_synthetic_appointment`. -/
def departments : List String :=
  ["Cardiology", "Neurology", "Orthopedics", "Pediatrics", "Dermatology",
   "Oncology", "Radiology"]

/-- `statuses` list from `generate_synthetic_appointment`. -/
def statuses : List String := ["Scheduled", "Completed", "Cancelled", "No-Show"]

/-- `cities` list from `generate_synthetic_appointment`. -/
def cities : List String :=
  ["New York", "Chicago", "Los Angeles", "Houston", "Phoenix", "Boston",
   "Seattle"]

/-- `payment_methods` list from `generate_synthetic_appointment`. -/
def payment_methods : List String :=
  ["Insurance", "Self-Pay", "Medicare", "Medicaid"]

/-- `urgency_levels` list from `generate_synthetic_appointment`. -/
def urgency_levels : List String := ["Low", "Medium", "High", "Critical"]

/-- One draw of the random source consumed by
`generate_synthetic_appointment`: the five `random.choice` results, the two
`fake.pyfloat` results, the uuid token and the `datetime.now().isoformat()`
string. -/
structure GenInput where
  department : String
  status : String
  city : String
  payment_method : String
  urgency : String
  base_cost : ℚ
  copay_draw : ℚ
  appointment_id : String
  timestamp : String

/-- The ranges guaranteed by the random source: `random.choice` picks from
the fixed lists, `fake.pyfloat(min_value=80, max_value=1200, right_digits=2)`
yields an exact two-decimal value in [80, 1200], and
`fake.pyfloat(min_value=10, max_value=80, right_digits=2)` one in [10, 80]. -/
def GenInput.Valid (g : GenInput) : Prop :=
  g.department ∈ departments ∧ g.status ∈ statuses ∧ g.city ∈ cities ∧
  g.payment_method ∈ payment_methods ∧ g.urgency ∈ urgency_levels ∧
  (80 ≤ g.base_cost ∧ g.base_cost ≤ 1200 ∧ (g.base_cost * 100).den = 1) ∧
  (10 ≤ g.copay_draw ∧ g.copay_draw ≤ 80 ∧ (g.copay_draw * 100).den = 1)

instance (g : GenInput) : Decidable g.Valid := by
  unfold GenInput.Valid
  infer_instance

/-- The record returned by `generate_synthetic_appointment`: the nine keys of
the Python dict literal, one structure field per key. -/
structure Appointment where
  appointment_id : String
  status : String
  department : String
  urgency : String
  cost : ℚ
  timestamp : String
  city : String
  payment_method : String
  copay : ℚ
deriving DecidableEq

/-- Embedding of `generate_synthetic_appointment` (producer.py lines 11-39):
`copay` is the `[10, 80]` draw unless `payment_method == "Self-Pay"`, in
which case it is 0; `total_cost = base_cost + copay`; the dict carries
`cost = round(total_cost, 2)` and `copay = round(copay, 2)` and does not
carry `base_cost`. -/
def generate_synthetic_appointment (g : GenInput) : Appointment :=
  let base_cost := g.base_cost
  let copay : ℚ := if g.payment_method ≠ "Self-Pay" then g.copay_draw else 0
  let total_cost := base_cost + copay
  { appointment_id := g.appointment_id
    status := g.status
    department := g.department
    urgency := g.urgency
    cost := round2 total_cost
    timestamp := g.timestamp
    city := g.city
    payment_method := g.payment_method
    copay := round2 copay }

/-- A JSON-style value, as produced by `json.dumps` in the producer's value
serializer. -/
inductive JValue where
  | str : String → JValue
  | num : ℚ → JValue
deriving DecidableEq

/-- The serialized form of the returned dict: its key/value pairs in literal
order, exactly as `json.dumps` serializes them for the channel. -/
def appointment_record (a : Appointment) : List (String × JValue) :=
  [("appointment_id", JValue.str a.appointment_id),
   ("status", JValue.str a.status),
   ("department", JValue.str a.department),
   ("urgency", JValue.str a.urgency),
   ("cost", JValue.num a.cost),
   ("timestamp", JValue.str a.timestamp),
   ("city", JValue.str a.city),
   ("payment_method", JValue.str a.payment_method),
   ("copay", JValue.num a.copay)]

/-- The kafka client configuration in `run_producer`: `retries=5`. -/
def producer_retries : Nat := 5

/-- Modelled from the spec: the per-send retry loop lives inside the external
kafka client, not in this repository's code; `run_producer` only configures
it with `retries=5`. Per the spec the client makes 1 initial attempt plus up
to `retries` internal retries before the send future fails. -/
def max_send_attempts : Nat := 1 + producer_retries

/-- Acknowledgment metadata for one delivered message (`future.get` result:
partition and offset). -/
structure RecordMetadata where
  partition : Nat
  offset : Nat
deriving DecidableEq

/-- Modelled from the spec: one `producer.send(...); future.get(timeout=10)`
call, parameterized by the outcome of each underlying attempt (`some`
metadata on success, `none` on failure); the first successful attempt within
the budget yields the delivery receipt, and exhausting the budget yields
none. -/
def send_with_retries (attempt : Nat → Option RecordMetadata) :
    Option RecordMetadata :=
  (List.range max_send_attempts).findSome? attempt

/-- The surrounding control flow of `run_producer` (producer.py lines 44-74):
a failed send raises out of `future.get`, lands in the `except` block, which
prints the diagnostic and re-raises, terminating the process (the script runs
`run_producer()` at top level); a successful send yields the receipt. -/
def run_producer_send (attempt : Nat → Option RecordMetadata) :
    Except String RecordMetadata :=
  match send_with_retries attempt with
  | some md => Except.ok md
  | none => Except.error "[Producer ERROR] send failed: retry budget exhausted"

end Producer

namespace Dashboard

/-- One row of the `appointments` table as read back by `load_data`
(`SELECT *`): the nine Event fields; `timestamp` is embedded as seconds since
the epoch, the numeric value `pd.to_datetime` yields for the stored
isoformat string. -/
structure Row where
  appointment_id : String
  status : String
  department : String
  urgency : String
  cost : ℚ
  timestamp : Nat
  city : String
  payment_method : String
  copay : ℚ
deriving DecidableEq

/-- A pandas DataFrame over `Row`s. Column presence is frame-level in
pandas (`"timestamp" in df.columns`): `hasTimestamp` records whether the
timestamp column is present; when it is, every row carries a timestamp
value, and when it is not, no row does. -/
structure DataFrame where
  hasTimestamp : Bool
  rows : List Row
deriving DecidableEq

/-- `ORDER BY appointment_id DESC`: row `a` precedes row `b` when `b`'s id
token is at most `a`'s. -/
def idDesc (a b : Row) : Prop := b.appointment_id ≤ a.appointment_id

instance : DecidableRel idDesc :=
  fun a b => inferInstanceAs (Decidable (b.appointment_id ≤ a.appointment_id))

instance : IsTotal Row idDesc :=
  ⟨fun a b => le_total b.appointment_id a.appointment_id⟩

instance : IsTrans Row idDesc :=
  ⟨fun _ _ _ hab hbc => le_trans hbc hab⟩

/-- The `WHERE status = :status` clause of `load_data`'s query, added only
when `status_filter` is truthy (`if status_filter`) and differs from
`"All"`. -/
def filter_by_status (table : List Row) (status_filter : Option String) :
    List Row :=
  match status_filter with
  | some s =>
      if s ≠ "" ∧ s ≠ "All" then table.filter (fun r => r.status == s)
      else table
  | none => table

/-- The SQL query built by `load_data` (dashboard.py lines 22-28), run
against the store's table (given in arrival order, oldest first):
`SELECT * FROM appointments [WHERE status = :status] ORDER BY
appointment_id DESC LIMIT :limit`. -/
def query_appointments (table : List Row) (status_filter : Option String)
    (limit : Nat) : List Row :=
  (List.insertionSort idDesc (filter_by_status table status_filter)).take
    limit

/-- Embedding of `load_data` (dashboard.py lines 21-35): the `try` block
runs the query; `db_error` is the exception the underlying call raises, or
`none` when it succeeds. On an exception the function surfaces the
diagnostic via `st.error` (the returned `Option String`) and returns an
empty DataFrame instead of re-raising. -/
def load_data (table : List Row) (status_filter : Option String)
    (limit : Nat) (db_error : Option String) : List Row × Option String :=
  match db_error with
  | none => (query_appointments table status_filter limit, none)
  | some e => ([], some ("Error loading data from database: " ++ e))

/-- What the claim (and the spec's Dataset section) describes the fetch as
returning: the most recent `limit` rows in arrival order — the reverse of
the table, which is listed oldest first — optionally restricted to the
filter. Stated from the spec's words, for comparison with
`query_appointments`. -/
def spec_recent_rows (table : List Row) (status_filter : Option String)
    (limit : Nat) : List Row :=
  (filter_by_status table status_filter).reverse.take limit

/-- The sidebar selector's option list (dashboard.py line 38). -/
def status_options : List String :=
  ["All", "Scheduled", "Completed", "Cancelled", "No-Show"]

/-- KPI `total_appts = len(df)` (dashboard.py line 61). -/
def total_appts (df : List Row) : Nat := df.length

/-- KPI `total_cost = df["cost"].sum()` (line 62). -/
def total_cost (df : List Row) : ℚ := (df.map Row.cost).sum

/-- KPI `average_cost = total_cost / total_appts if total_appts > 0 else
0.0` (line 63). -/
def average_cost (df : List Row) : ℚ :=
  if 0 < df.length then total_cost df / (df.length : ℚ) else 0

/-- KPI `completed = len(df[df["status"] == "Completed"])` (line 64). -/
def completed (df : List Row) : Nat :=
  (df.filter (fun r => r.status == "Completed")).length

/-- KPI `cancelled = len(df[df["status"] == "Cancelled"])` (line 65). -/
def cancelled (df : List Row) : Nat :=
  (df.filter (fun r => r.status == "Cancelled")).length

/-- KPI `completion_rate = (completed / total_appts * 100) if total_appts >
0 else 0.0` (line 66). -/
def completion_rate (df : List Row) : ℚ :=
  if 0 < df.length then ((completed df : ℚ) / (df.length : ℚ)) * 100 else 0

/-- Ordering used by `sort_values("appointments", ascending=False)`:
descending count. -/
def countDesc (x y : String × Nat × ℚ) : Prop := y.2.1 ≤ x.2.1

instance : DecidableRel countDesc :=
  fun x y => inferInstanceAs (Decidable (y.2.1 ≤ x.2.1))

/-- `status_summary`: group by `status`, emitting per status the count of
`appointment_id` and the revenue sum of `cost`, sorted descending by count
(dashboard.py lines 79-84). -/
def status_summary (df : List Row) : List (String × Nat × ℚ) :=
  List.insertionSort countDesc
    (((df.map Row.status).dedup).map fun s =>
      (s, (df.filter (fun r => r.status == s)).length,
          ((df.filter (fun r => r.status == s)).map Row.cost).sum))

/-- `volume_cost_trend` (dashboard.py lines 100-107): when the timestamp
column is present, `resample("1Min")` buckets the rows into one-minute
left-closed intervals anchored to absolute time, from the minute of the
earliest timestamp to the minute of the latest (empty buckets included),
emitting per bucket the count of `appointment_id` and the revenue sum; the
DataFrame stays empty otherwise. -/
def volume_cost_trend (df : DataFrame) : List (Nat × Nat × ℚ) :=
  match df.hasTimestamp, df.rows with
  | false, _ => []
  | true, [] => []
  | true, r :: rs =>
      let ts := (r :: rs).map Row.timestamp
      let lo := ts.foldr min r.timestamp / 60
      let hi := ts.foldr max r.timestamp / 60
      (List.range' lo (hi - lo + 1)).map fun b =>
        (b, ((r :: rs).filter fun x => x.timestamp / 60 == b).length,
         (((r :: rs).filter fun x => x.timestamp / 60 == b).map Row.cost).sum)

/-- Sample row with id token `ff000000`, inserted into the table first. -/
def rowA : Row :=
  { appointment_id := "ff000000", status := "Scheduled",
    department := "Cardiology", urgency := "Low", cost := 100,
    timestamp := 0, city := "Boston", payment_method := "Insurance",
    copay := 10 }

/-- Sample row with id token `aa000000`, inserted into the table second
(hence the more recent arrival). -/
def rowB : Row :=
  { appointment_id := "aa000000", status := "Scheduled",
    department := "Neurology", urgency := "High", cost := 200,
    timestamp := 60, city := "Chicago", payment_method := "Medicare",
    copay := 20 }

/-- The 3-row Dataset of the KPI scenario: statuses [Completed, Cancelled,
Completed], costs [100.00, 50.00, 200.00]. -/
def scenarioRows : List Row :=
  [{ appointment_id := "00000001", status := "Completed",
     department := "Cardiology", urgency := "Low", cost := 100,
     timestamp := 0, city := "Boston", payment_method := "Insurance",
     copay := 10 },
   { appointment_id := "00000002", status := "Cancelled",
     department := "Neurology", urgency := "Medium", cost := 50,
     timestamp := 30, city := "Chicago", payment_method := "Medicaid",
     copay := 15 },
   { appointment_id := "00000003", status := "Completed",
     department := "Oncology", urgency := "High", cost := 200,
     timestamp := 90, city := "Seattle", payment_method := "Medicare",
     copay := 20 }]

/-- Sample timestamped row for the trend witness. -/
def trendRow : Row :=
  { appointment_id := "t0000001", status := "Scheduled",
    department := "Radiology", urgency := "Medium", cost := 120,
    timestamp := 30, city := "Houston", payment_method := "Medicare",
    copay := 25 }

end Dashboard

open Producer Dashboard

/-! ## Arithmetic helper lemmas -/

/-- A rational with denominator 1 is its numerator. -/
lemma eq_num_of_den_one {x : ℚ} (h : x.den = 1) : x = (x.num : ℚ) := by
  conv_lhs => rw [← Rat.num_div_den x, h]
  simp

/-- `round2` is the identity on exact two-decimal rationals. -/
lemma round2_twoDec {q : ℚ} (h : (q * 100).den = 1) : round2 q = q := by
  have h1 : q * 100 = ((q * 100).num : ℚ) := eq_num_of_den_one h
  have h2 : ⌊q * 100 + 1 / 2⌋ = (q * 100).num := by
    rw [h1, add_comm, Int.floor_add_int]
    norm_num
  unfold round2
  rw [h2, ← h1]
  ring

/-- The sum of two exact two-decimal rationals is an exact two-decimal
rational. -/
lemma twoDec_add {a b : ℚ} (ha : (a * 100).den = 1) (hb : (b * 100).den = 1) :
    ((a + b) * 100).den = 1 := by
  have h1 : a * 100 = ((a * 100).num : ℚ) := eq_num_of_den_one ha
  have h2 : b * 100 = ((b * 100).num : ℚ) := eq_num_of_den_one hb
  have h3 : (a + b) * 100 = (((a * 100).num + (b * 100).num : ℤ) : ℚ) := by
    push_cast
    rw [← h1, ← h2]
    ring
  rw [h3, Rat.den_intCast]

lemma round2_zero : round2 0 = 0 :=
  round2_twoDec (by norm_num)

lemma generate_copay_def (g : GenInput) :
    (generate_synthetic_appointment g).copay =
      round2 (if g.payment_method ≠ "Self-Pay" then g.copay_draw else 0) := rfl

lemma generate_cost_def (g : GenInput) :
    (generate_synthetic_appointment g).cost =
      round2 (g.base_cost +
        (if g.payment_method ≠ "Self-Pay" then g.copay_draw else 0)) := rfl

lemma generate_payment_method_def (g : GenInput) :
    (generate_synthetic_appointment g).payment_method = g.payment_method := rfl

/-! ## Counting helper lemmas -/

lemma sum_map_add_nat {κ : Type} (l : List κ) (f g : κ → Nat) :
    (l.map fun k => f k + g k).sum = (l.map f).sum + (l.map g).sum := by
  induction l with
  | nil => simp
  | cons a t ih =>
      simp only [List.map_cons, List.sum_cons, ih]
      omega

lemma sum_map_indicator_zero {κ : Type} [DecidableEq κ] (keys : List κ)
    (x : κ) (hx : x ∉ keys) :
    (keys.map fun k => if x = k then (1 : Nat) else 0).sum = 0 := by
  induction keys with
  | nil => simp
  | cons k t ih =>
      have hxk : x ≠ k := fun h => hx (h ▸ List.mem_cons_self k t)
      have hxt : x ∉ t := fun h => hx (List.mem_cons_of_mem k h)
      simp only [List.map_cons, List.sum_cons, if_neg hxk, ih hxt]

lemma sum_map_indicator {κ : Type} [DecidableEq κ] (keys : List κ)
    (hnd : keys.Nodup) (x : κ) (hx : x ∈ keys) :
    (keys.map fun k => if x = k then (1 : Nat) else 0).sum = 1 := by
  induction keys with
  | nil => cases hx
  | cons k t ih =>
      obtain ⟨hk, ht⟩ := List.nodup_cons.mp hnd
      by_cases hxk : x = k
      · have hxt : x ∉ t := hxk ▸ hk
        simp only [List.map_cons, List.sum_cons, if_pos hxk,
          sum_map_indicator_zero t x hxt]
      · have hxt : x ∈ t := (List.mem_cons.mp hx).resolve_left hxk
        simp only [List.map_cons, List.sum_cons, if_neg hxk, ih ht hxt]

/-- Counting rows fiberwise: when `keys` has no duplicates and covers the
key of every element, the per-key filter lengths sum to the list's length. -/
lemma sum_length_filter_eq_length {κ α : Type} [DecidableEq κ] (key : α → κ)
    (keys : List κ) (hnd : keys.Nodup) :
    ∀ l : List α, (∀ a ∈ l, key a ∈ keys) →
      (keys.map fun k => (l.filter fun a => key a == k).length).sum =
        l.length := by
  intro l
  induction l with
  | nil => intro _; simp
  | cons a t ih =>
      intro hmem
      have hm : key a ∈ keys := hmem a (List.mem_cons_self a t)
      have ht : ∀ x ∈ t, key x ∈ keys :=
        fun x hx => hmem x (List.mem_cons_of_mem a hx)
      have hstep : ∀ k : κ, ((a :: t).filter fun x => key x == k).length =
          (if key a = k then 1 else 0) +
            (t.filter fun x => key x == k).length := by
        intro k
        rw [List.filter_cons]
        by_cases hk : key a = k
        · simp [hk]
          omega
        · simp [hk]
      calc (keys.map fun k => ((a :: t).filter fun x => key x == k).length).sum
          = (keys.map fun k => (if key a = k then 1 else 0) +
              (t.filter fun x => key x == k).length).sum := by
            simp only [hstep]
        _ = (keys.map fun k => if key a = k then (1 : Nat) else 0).sum +
              (keys.map fun k => (t.filter fun x => key x == k).length).sum :=
            sum_map_add_nat keys _ _
        _ = 1 + t.length := by
            rw [sum_map_indicator keys hnd _ hm, ih ht]
        _ = (a :: t).length := by
            rw [List.length_cons]
            omega

lemma foldr_min_le_init (l : List Nat) (init : Nat) :
    l.foldr min init ≤ init := by
  induction l with
  | nil => exact le_refl _
  | cons a t ih => exact le_trans (min_le_right _ _) ih

lemma foldr_min_le_mem (l : List Nat) (init : Nat) :
    ∀ x ∈ l, l.foldr min init ≤ x := by
  induction l with
  | nil => intro x hx; cases hx
  | cons a t ih =>
      intro x hx
      rcases List.mem_cons.mp hx with h | h
      · exact h ▸ min_le_left _ _
      · exact le_trans (min_le_right _ _) (ih x h)

lemma init_le_foldr_max (l : List Nat) (init : Nat) :
    init ≤ l.foldr max init := by
  induction l with
  | nil => exact le_refl _
  | cons a t ih => exact le_trans ih (le_max_right _ _)

lemma mem_le_foldr_max (l : List Nat) (init : Nat) :
    ∀ x ∈ l, x ≤ l.foldr max init := by
  induction l with
  | nil => intro x hx; cases hx
  | cons a t ih =>
      intro x hx
      rcases List.mem_cons.mp hx with h | h
      · exact h ▸ le_max_left _ _
      · exact le_trans (ih x h) (le_max_right _ _)

/-! ## Claim theorems -/

/-- C2: every Event produced by `generate_synthetic_appointment` satisfies
`0 ≤ copay ≤ cost` (the serialized total cost), and `copay = 0` whenever
`payment_method = "Self-Pay"`. -/
theorem generate_copay_bounds (g : GenInput) (h : g.Valid) :
    0 ≤ (generate_synthetic_appointment g).copay ∧
    (generate_synthetic_appointment g).copay ≤
      (generate_synthetic_appointment g).cost ∧
    ((generate_synthetic_appointment g).payment_method = "Self-Pay" →
      (generate_synthetic_appointment g).copay = 0) := by
  obtain ⟨-, -, -, -, -, ⟨hb1, hb2, hbd⟩, ⟨hc1, hc2, hcd⟩⟩ := h
  refine ⟨?_, ?_, ?_⟩
  · rw [generate_copay_def]
    by_cases hpm : g.payment_method = "Self-Pay"
    · simp [hpm, round2_zero]
    · simp only [hpm, ne_eq, not_false_eq_true, if_true]
      rw [round2_twoDec hcd]
      linarith
  · rw [generate_copay_def, generate_cost_def]
    by_cases hpm : g.payment_method = "Self-Pay"
    · simp only [hpm, ne_eq, not_true_eq_false, if_false, round2_zero, add_zero]
      rw [round2_twoDec hbd]
      linarith
    · simp only [hpm, ne_eq, not_false_eq_true, if_true]
      rw [round2_twoDec hcd, round2_twoDec (twoDec_add hbd hcd)]
      linarith
  · rw [generate_payment_method_def, generate_copay_def]
    intro hpm
    simp [hpm, round2_zero]

/-- Witness for C2 at a concrete random draw. -/
theorem generate_copay_bounds_witness :
    0 ≤ (generate_synthetic_appointment
          ⟨"Cardiology", "Completed", "Boston", "Insurance", "High",
           100, 20, "a1b2c3d4", "2024-01-01T00:00:00"⟩).copay ∧
    (generate_synthetic_appointment
          ⟨"Cardiology", "Completed", "Boston", "Insurance", "High",
           100, 20, "a1b2c3d4", "2024-01-01T00:00:00"⟩).copay ≤
      (generate_synthetic_appointment
          ⟨"Cardiology", "Completed", "Boston", "Insurance", "High",
           100, 20, "a1b2c3d4", "2024-01-01T00:00:00"⟩).cost ∧
    ((generate_synthetic_appointment
          ⟨"Cardiology", "Completed", "Boston", "Insurance", "High",
           100, 20, "a1b2c3d4", "2024-01-01T00:00:00"⟩).payment_method =
        "Self-Pay" →
      (generate_synthetic_appointment
          ⟨"Cardiology", "Completed", "Boston", "Insurance", "High",
           100, 20, "a1b2c3d4", "2024-01-01T00:00:00"⟩).copay = 0) :=
  generate_copay_bounds
    ⟨"Cardiology", "Completed", "Boston", "Insurance", "High",
     100, 20, "a1b2c3d4", "2024-01-01T00:00:00"⟩
    ⟨by decide, by decide, by decide, by decide, by decide,
     ⟨by norm_num, by norm_num, by norm_num⟩,
     ⟨by norm_num, by norm_num, by norm_num⟩⟩

/-- C7: for every generated Event, the serialized `cost` equals
`base_cost + copay` rounded to two decimals, and `cost ≥ base_cost ≥ 0`. -/
theorem generate_total_cost_invariant (g : GenInput) (h : g.Valid) :
    (generate_synthetic_appointment g).cost =
      round2 (g.base_cost + (generate_synthetic_appointment g).copay) ∧
    g.base_cost ≤ (generate_synthetic_appointment g).cost ∧
    0 ≤ g.base_cost := by
  obtain ⟨-, -, -, -, -, ⟨hb1, hb2, hbd⟩, ⟨hc1, hc2, hcd⟩⟩ := h
  refine ⟨?_, ?_, by linarith⟩
  · rw [generate_cost_def, generate_copay_def]
    by_cases hpm : g.payment_method = "Self-Pay"
    · simp [hpm, round2_zero]
    · simp only [hpm, ne_eq, not_false_eq_true, if_true]
      rw [round2_twoDec hcd]
  · rw [generate_cost_def]
    by_cases hpm : g.payment_method = "Self-Pay"
    · simp only [hpm, ne_eq, not_true_eq_false, if_false, add_zero]
      rw [round2_twoDec hbd]
    · simp only [hpm, ne_eq, not_false_eq_true, if_true]
      rw [round2_twoDec (twoDec_add hbd hcd)]
      linarith

/-- Witness for C7 at a concrete random draw (a Self-Pay event). -/
theorem generate_total_cost_invariant_witness :
    (generate_synthetic_appointment
        ⟨"Oncology", "Scheduled", "Seattle", "Self-Pay", "Low",
         (161/2 : ℚ), 15, "deadbeef", "2024-06-30T12:00:00"⟩).cost =
      round2 ((161/2 : ℚ) +
        (generate_synthetic_appointment
          ⟨"Oncology", "Scheduled", "Seattle", "Self-Pay", "Low",
           (161/2 : ℚ), 15, "deadbeef", "2024-06-30T12:00:00"⟩).copay) ∧
    (161/2 : ℚ) ≤ (generate_synthetic_appointment
        ⟨"Oncology", "Scheduled", "Seattle", "Self-Pay", "Low",
         (161/2 : ℚ), 15, "deadbeef", "2024-06-30T12:00:00"⟩).cost ∧
    (0 : ℚ) ≤ (161/2 : ℚ) :=
  generate_total_cost_invariant
    ⟨"Oncology", "Scheduled", "Seattle", "Self-Pay", "Low",
     (161/2 : ℚ), 15, "deadbeef", "2024-06-30T12:00:00"⟩
    ⟨by decide, by decide, by decide, by decide, by decide,
     ⟨by norm_num, by norm_num, by norm_num⟩,
     ⟨by norm_num, by norm_num, by norm_num⟩⟩

/-- C10: the record returned by `generate_synthetic_appointment` carries
exactly the nine keys `appointment_id, status, department, urgency, cost,
timestamp, city, payment_method, copay`, and no `base_cost` key. -/
theorem appointment_record_fields (g : GenInput) :
    (appointment_record (generate_synthetic_appointment g)).map Prod.fst =
      ["appointment_id", "status", "department", "urgency", "cost",
       "timestamp", "city", "payment_method", "copay"] ∧
    ((appointment_record (generate_synthetic_appointment g)).map
        Prod.fst).length = 9 ∧
    "base_cost" ∉
      (appointment_record (generate_synthetic_appointment g)).map Prod.fst := by
  have hk : (appointment_record (generate_synthetic_appointment g)).map
      Prod.fst =
      ["appointment_id", "status", "department", "urgency", "cost",
       "timestamp", "city", "payment_method", "copay"] := rfl
  refine ⟨hk, by rw [hk]; rfl, by rw [hk]; decide⟩

/-- C9: when the send fails on all 6 attempts (1 initial + 5 configured
retries), `run_producer` surfaces a fatal publish error and re-raises it —
terminating the process — and no delivery receipt is returned. -/
theorem run_producer_fatal_after_six_failures
    (attempt : Nat → Option RecordMetadata)
    (h : ∀ i, i < 6 → attempt i = none) :
    max_send_attempts = 6 ∧
    run_producer_send attempt =
      Except.error "[Producer ERROR] send failed: retry budget exhausted" ∧
    ∀ md, run_producer_send attempt ≠ Except.ok md := by
  have hs : send_with_retries attempt = none := by
    show (List.range max_send_attempts).findSome? attempt = none
    have hr : List.range max_send_attempts = [0, 1, 2, 3, 4, 5] := rfl
    rw [hr]
    simp [List.findSome?_cons, h 0 (by omega), h 1 (by omega), h 2 (by omega),
      h 3 (by omega), h 4 (by omega), h 5 (by omega)]
  refine ⟨rfl, ?_, ?_⟩
  · unfold run_producer_send
    rw [hs]
  · intro md hmd
    unfold run_producer_send at hmd
    rw [hs] at hmd
    exact Except.noConfusion hmd

/-- Witness for C9: the constantly failing attempt sequence. -/
theorem run_producer_fatal_after_six_failures_witness :
    max_send_attempts = 6 ∧
    run_producer_send (fun _ => none) =
      Except.error "[Producer ERROR] send failed: retry budget exhausted" ∧
    ∀ md, run_producer_send (fun _ => none) ≠ Except.ok md :=
  run_producer_fatal_after_six_failures (fun _ => none) (fun _ _ => rfl)

/-- C1 counterexample: the table holds `rowA` (id token `ff000000`, arrived
first) then `rowB` (id token `aa000000`, arrived second, hence most recent).
With no filter and limit 1 the query returns `rowA` — because `ORDER BY
appointment_id DESC` sorts by the random id token — while the claimed
"most recent rows by arrival recency" Dataset is `[rowB]`; the most recent
row is not returned at all. -/
theorem load_data_not_arrival_recency :
    (load_data [rowA, rowB] none 1 none).1 = [rowA] ∧
    spec_recent_rows [rowA, rowB] none 1 = [rowB] ∧
    rowB ∉ (load_data [rowA, rowB] none 1 none).1 ∧
    (load_data [rowA, rowB] none 1 none).1 ≠
      spec_recent_rows [rowA, rowB] none 1 := by
  have hAB : idDesc rowA rowB := by
    show rowB.appointment_id ≤ rowA.appointment_id
    rw [String.le_iff_toList_le]
    decide
  have hsort : List.insertionSort idDesc [rowA, rowB] = [rowA, rowB] := by
    show List.orderedInsert idDesc rowA [rowB] = [rowA, rowB]
    unfold List.orderedInsert
    rw [if_pos hAB]
  have hload : (load_data [rowA, rowB] none 1 none).1 = [rowA] := by
    show (List.insertionSort idDesc
      (filter_by_status [rowA, rowB] none)).take 1 = [rowA]
    show (List.insertionSort idDesc [rowA, rowB]).take 1 = [rowA]
    rw [hsort]
    rfl
  refine ⟨hload, rfl, ?_, ?_⟩
  · rw [hload]
    intro hmem
    have h1 : rowB = rowA := List.mem_singleton.mp hmem
    exact absurd (congrArg Row.appointment_id h1) (by decide)
  · rw [hload]
    show ¬ [rowA] = [rowB]
    intro hEq
    have h1 : rowA = rowB := by injection hEq
    exact absurd (congrArg Row.appointment_id h1) (by decide)

/-- C1 amended: for every table, filter and positive limit, the fetch
returns at most `limit` rows, sorted descending by the `appointment_id`
token, all drawn from the table; and when a status filter other than
All/None/empty is given, every returned row has that status. (The
counterexample forces dropping "most recent / arrival-recency": the query
orders by the random `appointment_id` token, which need not follow arrival
order.) -/
theorem load_data_ordered_bounded_filtered (table : List Row)
    (status_filter : Option String) (limit : Nat) (_hpos : 0 < limit) :
    ((load_data table status_filter limit none).1).length ≤ limit ∧
    List.Sorted idDesc (load_data table status_filter limit none).1 ∧
    (∀ r ∈ (load_data table status_filter limit none).1, r ∈ table) ∧
    (∀ s, status_filter = some s → s ≠ "" → s ≠ "All" →
      ∀ r ∈ (load_data table status_filter limit none).1, r.status = s) := by
  have hgen : ∀ l : List Row,
      (List.take limit (List.insertionSort idDesc l)).length ≤ limit ∧
      List.Sorted idDesc (List.take limit (List.insertionSort idDesc l)) ∧
      ∀ r ∈ List.take limit (List.insertionSort idDesc l), r ∈ l := by
    intro l
    refine ⟨?_, ?_, ?_⟩
    · rw [List.length_take]
      exact min_le_left _ _
    · exact List.Pairwise.sublist (List.take_sublist _ _)
        (List.sorted_insertionSort idDesc l)
    · intro r hr
      exact (List.perm_insertionSort idDesc l).subset
        ((List.take_sublist _ _).subset hr)
  cases status_filter with
  | none =>
      obtain ⟨h1, h2, h3⟩ := hgen table
      exact ⟨h1, h2, h3, fun s hs => Option.noConfusion hs⟩
  | some s =>
      by_cases hc : s ≠ "" ∧ s ≠ "All"
      · have hq : (load_data table (some s) limit none).1 =
            List.take limit (List.insertionSort idDesc
              (table.filter fun r => r.status == s)) := by
          have hf : filter_by_status table (some s) =
              if s ≠ "" ∧ s ≠ "All" then
                table.filter (fun r => r.status == s)
              else table := rfl
          show List.take limit (List.insertionSort idDesc
            (filter_by_status table (some s))) = _
          rw [hf, if_pos hc]
        obtain ⟨h1, h2, h3⟩ := hgen (table.filter fun r => r.status == s)
        rw [hq]
        refine ⟨h1, h2, ?_, ?_⟩
        · intro r hr
          exact List.mem_of_mem_filter (h3 r hr)
        · intro s' hs' hne1 hne2 r hr
          obtain rfl : s = s' := Option.some.inj hs'
          have := List.of_mem_filter (h3 r hr)
          exact eq_of_beq this
      · have hq : (load_data table (some s) limit none).1 =
            List.take limit (List.insertionSort idDesc table) := by
          have hf : filter_by_status table (some s) =
              if s ≠ "" ∧ s ≠ "All" then
                table.filter (fun r => r.status == s)
              else table := rfl
          show List.take limit (List.insertionSort idDesc
            (filter_by_status table (some s))) = _
          rw [hf, if_neg hc]
        obtain ⟨h1, h2, h3⟩ := hgen table
        rw [hq]
        refine ⟨h1, h2, h3, ?_⟩
        intro s' hs' hne1 hne2 r hr
        obtain rfl : s = s' := Option.some.inj hs'
        exact absurd ⟨hne1, hne2⟩ hc

/-- Witness for C1 amended: a filtered query on the two-row table. -/
theorem load_data_ordered_bounded_filtered_witness :
    ((load_data [rowA, rowB] (some "Scheduled") 50 none).1).length ≤ 50 ∧
    List.Sorted idDesc (load_data [rowA, rowB] (some "Scheduled") 50 none).1 ∧
    (∀ r ∈ (load_data [rowA, rowB] (some "Scheduled") 50 none).1,
      r ∈ [rowA, rowB]) ∧
    (∀ s, (some "Scheduled" : Option String) = some s → s ≠ "" → s ≠ "All" →
      ∀ r ∈ (load_data [rowA, rowB] (some "Scheduled") 50 none).1,
        r.status = s) :=
  load_data_ordered_bounded_filtered [rowA, rowB] (some "Scheduled") 50
    (by norm_num)

/-- C3: on the 3-row Dataset with statuses [Completed, Cancelled, Completed]
and costs [100.00, 50.00, 200.00], the KPI block yields count 3, total cost
350.00, average cost 116.67 (350/3 rounded to two decimals), 2 completed,
1 cancelled, and a completion rate displayed as 66.67%. -/
theorem kpi_scenario_three_rows :
    total_appts scenarioRows = 3 ∧
    total_cost scenarioRows = 350 ∧
    average_cost scenarioRows = 350 / 3 ∧
    round2 (average_cost scenarioRows) = 11667 / 100 ∧
    completed scenarioRows = 2 ∧
    cancelled scenarioRows = 1 ∧
    completion_rate scenarioRows = 200 / 3 ∧
    round2 (completion_rate scenarioRows) = 6667 / 100 := by
  have hc : total_cost scenarioRows = 350 := by
    unfold total_cost scenarioRows
    norm_num
  have ha : average_cost scenarioRows = 350 / 3 := by
    unfold average_cost
    rw [hc]
    norm_num [scenarioRows]
  have hcr : completion_rate scenarioRows = 200 / 3 := by
    unfold completion_rate
    have h2 : completed scenarioRows = 2 := rfl
    rw [h2]
    norm_num [scenarioRows]
  refine ⟨rfl, hc, ha, ?_, rfl, rfl, hcr, ?_⟩
  · rw [ha]
    unfold round2
    norm_num [Int.floor_eq_iff]
  · rw [hcr]
    unfold round2
    norm_num [Int.floor_eq_iff]

/-- C4: on any query failure (exception `e` raised by the underlying
connectivity or execution), `load_data` returns the empty Dataset together
with the surfaced diagnostic message, instead of re-raising; the caller sees
exactly an empty result plus a diagnostic. -/
theorem load_data_error_empty_with_diagnostic (table : List Row)
    (status_filter : Option String) (limit : Nat) (e : String) :
    load_data table status_filter limit (some e) =
      ([], some ("Error loading data from database: " ++ e)) ∧
    (load_data table status_filter limit (some e)).1 = [] :=
  ⟨rfl, rfl⟩

/-- C5: when every row has a timestamp (the timestamp column is present),
the per-minute trend bucket counts sum to the Dataset's row count; when no
row has a timestamp (the column is absent), the trend rollup is empty. -/
theorem volume_cost_trend_counts (df : DataFrame) :
    (df.hasTimestamp = true →
      ((volume_cost_trend df).map fun b => b.2.1).sum = df.rows.length) ∧
    (df.hasTimestamp = false → volume_cost_trend df = []) := by
  obtain ⟨hts, rows⟩ := df
  cases hts with
  | false => exact ⟨fun h => Bool.noConfusion h, fun _ => rfl⟩
  | true =>
      refine ⟨fun _ => ?_, fun h => Bool.noConfusion h⟩
      cases rows with
      | nil => rfl
      | cons r rs =>
          show ((((List.range'
              (((r :: rs).map Row.timestamp).foldr min r.timestamp / 60)
              ((((r :: rs).map Row.timestamp).foldr max r.timestamp / 60) -
                (((r :: rs).map Row.timestamp).foldr min r.timestamp / 60) +
                1)).map fun b =>
              (b, ((r :: rs).filter fun x => x.timestamp / 60 == b).length,
               (((r :: rs).filter fun x =>
                  x.timestamp / 60 == b).map Row.cost).sum)).map
            fun b => b.2.1).sum) = (r :: rs).length
          rw [List.map_map]
          have hcomp : ((fun b : Nat × Nat × ℚ => b.2.1) ∘ fun b =>
              (b, ((r :: rs).filter fun x => x.timestamp / 60 == b).length,
               (((r :: rs).filter fun x =>
                  x.timestamp / 60 == b).map Row.cost).sum)) =
              fun b => ((r :: rs).filter fun x =>
                x.timestamp / 60 == b).length := rfl
          rw [hcomp]
          set lo := ((r :: rs).map Row.timestamp).foldr min r.timestamp / 60
            with hlo
          set hi := ((r :: rs).map Row.timestamp).foldr max r.timestamp / 60
            with hhi
          refine sum_length_filter_eq_length (fun x : Row => x.timestamp / 60)
            (List.range' lo (hi - lo + 1)) (List.nodup_range' _ _) (r :: rs)
            ?_
          intro a ha
          have hmem : a.timestamp ∈ (r :: rs).map Row.timestamp :=
            List.mem_map_of_mem Row.timestamp ha
          have h1 : lo ≤ a.timestamp / 60 := by
            rw [hlo]
            exact Nat.div_le_div_right (foldr_min_le_mem _ _ _ hmem)
          have h2 : a.timestamp / 60 ≤ hi := by
            rw [hhi]
            exact Nat.div_le_div_right (mem_le_foldr_max _ _ _ hmem)
          have hb : (fun x : Row => x.timestamp / 60) a = a.timestamp / 60 :=
            rfl
          rw [hb, List.mem_range'_1]
          omega

/-- Witness for C5: a one-row timestamped frame (bucket counts sum to 1) and
a frame without the timestamp column (empty rollup). -/
theorem volume_cost_trend_counts_witness :
    ((volume_cost_trend ⟨true, [trendRow]⟩).map fun b => b.2.1).sum = 1 ∧
    volume_cost_trend ⟨false, [trendRow]⟩ = [] :=
  ⟨(volume_cost_trend_counts ⟨true, [trendRow]⟩).1 rfl,
   (volume_cost_trend_counts ⟨false, [trendRow]⟩).2 rfl⟩

/-- C6 counterexample: the sidebar status selector offers 5 fixed options,
not 6 — the four statuses plus "All". -/
theorem status_options_not_six : status_options.length ≠ 6 := by decide

/-- C6 amended: the status filter selector offers exactly 5 fixed options. -/
theorem status_options_five : status_options.length = 5 := rfl

/-- C8: for every Dataset, the KPI count equals the Dataset's row count, and
the per-status counts of the status-mix table sum to that same row count. -/
theorem aggregate_counts_consistent (df : List Row) :
    total_appts df = df.length ∧
    ((status_summary df).map fun x => x.2.1).sum = df.length := by
  refine ⟨rfl, ?_⟩
  unfold status_summary
  have hperm := (List.perm_insertionSort countDesc
    (((df.map Row.status).dedup).map fun s =>
      (s, (df.filter fun r => r.status == s).length,
        ((df.filter fun r => r.status == s).map Row.cost).sum))).map
    (fun x : String × Nat × ℚ => x.2.1)
  rw [hperm.sum_eq, List.map_map]
  have hcomp : ((fun x : String × Nat × ℚ => x.2.1) ∘ fun s =>
      (s, (df.filter fun r => r.status == s).length,
        ((df.filter fun r => r.status == s).map Row.cost).sum)) =
      fun s => (df.filter fun r => r.status == s).length := rfl
  rw [hcomp]
  refine sum_length_filter_eq_length Row.status _ (List.nodup_dedup _) df ?_
  intro r hr
  exact List.mem_dedup.mpr (List.mem_map_of_mem Row.status hr)
